import Mathlib

/-!
Verification of the multi-source audio acquisition engine in
`src/bot/audio_processor.py` (class `AudioProcessor`).

The shallow embedding below translates the pure computations of the source
directly (filename derivation, quality mapping, command construction) and
models the effectful parts (filesystem, subprocess, network session) as
explicit state: the filesystem is a map from paths to file sizes, and each
effectful primitive that can raise an exception in Python is given an
explicit environment flag or outcome value describing how it resolves.
Exception handlers in the source become the corresponding match arms.

Conventions:
- Python `str` values are embedded as `String`; where character-level
  reasoning is needed (the filename slug) we work on `List Char`.
- Python's regex class `\w` is modelled at the ASCII level as
  alphanumeric-or-underscore (the source's Unicode word characters are
  likewise filesystem-safe, so the verified properties are unaffected).
- Machine 32-bit arithmetic of MD5 is `Nat` with explicit `% 2^32`.
-/

/-- A filesystem snapshot: maps a path to `some size` when a file of that
byte size exists there, `none` otherwise.  Models `os.path.exists` /
`os.path.getsize` / `os.remove` / `open(..., 'wb')`. -/
abbrev FS : Type := String → Option Nat

/-- Model of `os.path.exists` (audio_processor.py line 63 etc.). -/
def pathExists (fs : FS) (p : String) : Bool := (fs p).isSome

/-- Model of `os.path.getsize` on an existing file. -/
def fileSize (fs : FS) (p : String) : Nat := (fs p).getD 0

/-- Model of `os.remove p`. -/
def removeFile (fs : FS) (p q : String) : Option Nat :=
  if q = p then none else fs q

/-- Model of writing a file of `size` bytes at `p` (`open(p,'wb')` + write). -/
def writeFile (fs : FS) (p : String) (size : Nat) (q : String) : Option Nat :=
  if q = p then some size else fs q

/-- The caller-supplied track dictionary; per the caller boundary it carries
a `name` and an `artist` entry (`track_info['name']`, `track_info['artist']`). -/
structure TrackInfo where
  name : String
  artist : String
deriving DecidableEq

/-- Line 42: `search_query = f"{track_info['name']} {track_info['artist']}"`. -/
def searchQuery (t : TrackInfo) : String := t.name ++ " " ++ t.artist

/-! ### MD5 (`hashlib.md5(search_query.encode()).hexdigest()`, line 962)

A direct embedding of the MD5 algorithm over byte lists, with 32-bit words
as `Nat` reduced mod `2^32`. -/

/-- State of the four MD5 registers A, B, C, D. -/
abbrev MD5State := Nat × Nat × Nat × Nat

def pow32 : Nat := 4294967296

def add32 (a b : Nat) : Nat := (a + b) % pow32

/-- Rotate a 32-bit word left by `c` bits (for `x < 2^32`, `0 < c < 32`). -/
def rotl32 (x c : Nat) : Nat := (x % 2 ^ (32 - c)) * 2 ^ c + x / 2 ^ (32 - c)

/-- Bitwise complement of a 32-bit word. -/
def not32 (x : Nat) : Nat := 4294967295 - x % pow32

/-- The 64 MD5 sine-derived constants. -/
def md5K : List Nat :=
  [3614090360, 3905402710, 606105819, 3250441966, 4118548399, 1200080426, 2821735955, 4249261313,
   1770035416, 2336552879, 4294925233, 2304563134, 1804603682, 4254626195, 2792965006, 1236535329,
   4129170786, 3225465664, 643717713, 3921069994, 3593408605, 38016083, 3634488961, 3889429448,
   568446438, 3275163606, 4107603335, 1163531501, 2850285829, 4243563512, 1735328473, 2368359562,
   4294588738, 2272392833, 1839030562, 4259657740, 2763975236, 1272893353, 4139469664, 3200236656,
   681279174, 3936430074, 3572445317, 76029189, 3654602809, 3873151461, 530742520, 3299628645,
   4096336452, 1126891415, 2878612391, 4237533241, 1700485571, 2399980690, 4293915773, 2240044497,
   1873313359, 4264355552, 2734768916, 1309151649, 4149444226, 3174756917, 718787259, 3951481745]

/-- The 64 MD5 per-round left-rotation amounts. -/
def md5S : List Nat :=
  [7, 12, 17, 22, 7, 12, 17, 22, 7, 12, 17, 22, 7, 12, 17, 22,
   5, 9, 14, 20, 5, 9, 14, 20, 5, 9, 14, 20, 5, 9, 14, 20,
   4, 11, 16, 23, 4, 11, 16, 23, 4, 11, 16, 23, 4, 11, 16, 23,
   6, 10, 15, 21, 6, 10, 15, 21, 6, 10, 15, 21, 6, 10, 15, 21]

/-- One MD5 round: `w` gives the 16 message words of the current block. -/
def md5Step (w : Nat → Nat) (st : MD5State) (i : Nat) : MD5State :=
  let a := st.1
  let b := st.2.1
  let c := st.2.2.1
  let d := st.2.2.2
  let f :=
    if i < 16 then (b &&& c) ||| (not32 b &&& d)
    else if i < 32 then (d &&& b) ||| (not32 d &&& c)
    else if i < 48 then b ^^^ c ^^^ d
    else c ^^^ (b ||| not32 d)
  let g :=
    if i < 16 then i
    else if i < 32 then (5 * i + 1) % 16
    else if i < 48 then (3 * i + 5) % 16
    else (7 * i) % 16
  let tmp := add32 (add32 (add32 a f) (md5K.getD i 0)) (w g)
  (d, add32 b (rotl32 tmp (md5S.getD i 0)), b, c)

/-- Little-endian word of four message bytes `j`. -/
def md5WordAt (block : List Nat) (j : Nat) : Nat :=
  block.getD (4 * j) 0 + 256 * block.getD (4 * j + 1) 0 +
    65536 * block.getD (4 * j + 2) 0 + 16777216 * block.getD (4 * j + 3) 0

/-- Process one 64-byte block. -/
def md5ProcessBlock (st : MD5State) (block : List Nat) : MD5State :=
  let r := (List.range 64).foldl (md5Step (md5WordAt block)) st
  (add32 st.1 r.1, add32 st.2.1 r.2.1, add32 st.2.2.1 r.2.2.1, add32 st.2.2.2 r.2.2.2)

/-- MD5 padding: append `0x80`, zero bytes to 56 mod 64, then the 64-bit
little-endian bit length of the original message. -/
def md5pad (msg : List Nat) : List Nat :=
  let bitLen := (msg.length * 8) % 2 ^ 64
  let zeros := (119 - msg.length % 64) % 64
  msg ++ 128 :: List.replicate zeros 0 ++
    (List.range 8).map (fun i => bitLen / 2 ^ (8 * i) % 256)

def md5Init : MD5State := (1732584193, 4023233417, 2562383102, 271733878)

/-- Fold over the padded message, 64 bytes at a time. -/
def md5Blocks (st : MD5State) (l : List Nat) : MD5State :=
  if h : l = [] then st
  else md5Blocks (md5ProcessBlock st (l.take 64)) (l.drop 64)
termination_by l.length
decreasing_by
  simp only [List.length_drop]
  exact Nat.sub_lt (List.length_pos.mpr h) (by decide)

/-- Four little-endian bytes of a 32-bit word. -/
def wordLE (x : Nat) : List Nat :=
  [x % 256, x / 256 % 256, x / 65536 % 256, x / 16777216 % 256]

/-- The 16-byte MD5 digest of a byte list. -/
def md5Digest (msg : List Nat) : List Nat :=
  let st := md5Blocks md5Init (md5pad msg)
  wordLE st.1 ++ wordLE st.2.1 ++ wordLE st.2.2.1 ++ wordLE st.2.2.2

/-- The sixteen lowercase hex digits. -/
def hexDigitChars : List Char := "0123456789abcdef".data

def hexDigit (n : Nat) : Char := hexDigitChars.getD n '0'

/-- `hexdigest()`: two hex characters per digest byte. -/
def md5hexChars (msg : List Nat) : List Char :=
  (md5Digest msg).foldr (fun b acc => hexDigit (b / 16 % 16) :: hexDigit (b % 16) :: acc) []

/-- UTF-8 bytes of a string (`search_query.encode()`). -/
def utf8Bytes (s : String) : List Nat :=
  s.toUTF8.data.toList.map (fun b => b.toNat)

/-- Line 962: `file_hash = hashlib.md5(search_query.encode()).hexdigest()[:8]`. -/
def fileHash (q : String) : List Char := (md5hexChars (utf8Bytes q)).take 8

/-! ### Filename sanitization (lines 963-965)

```
safe_filename = re.sub(r'[^\w\s-]', '', search_query).strip()
safe_filename = re.sub(r'[-\s]+', '-', safe_filename)
output_file = os.path.join(self.download_dir, f"{safe_filename}-{file_hash}.%(ext)s")
```
-/

/-- Python regex `\s` at the ASCII level: space, tab, newline, carriage
return, vertical tab, form feed. -/
def isSpaceCh (c : Char) : Bool :=
  [' ', '\x09', '\x0a', '\x0d', '\x0b', '\x0c'].contains c

/-- Python regex `\w` modelled at the ASCII level (see header note). -/
def isWordCh (c : Char) : Bool := c.isAlphanum || c == '_'

/-- A character kept by `re.sub(r'[^\w\s-]', '', ...)`. -/
def keepCh (c : Char) : Bool := isWordCh c || isSpaceCh c || c == '-'

/-- A character matched by the separator class `[-\s]`. -/
def isSepCh (c : Char) : Bool := c == '-' || isSpaceCh c

/-- Python `str.strip()`: drop leading and trailing whitespace. -/
def pyStrip (l : List Char) : List Char :=
  ((l.dropWhile isSpaceCh).reverse.dropWhile isSpaceCh).reverse

/-- `re.sub(r'[-\s]+', '-', ...)`: every maximal run of separator characters
is replaced by a single hyphen (emitted at the end of the run). -/
def collapseSeps : List Char → List Char
  | [] => []
  | [c] => if isSepCh c then ['-'] else [c]
  | c1 :: c2 :: rest =>
    if isSepCh c1 && isSepCh c2 then collapseSeps (c2 :: rest)
    else (if isSepCh c1 then '-' else c1) :: collapseSeps (c2 :: rest)

/-- The full slug pipeline of lines 963-964 applied to the raw query. -/
def sanitizeSlug (l : List Char) : List Char :=
  collapseSeps (pyStrip (l.filter keepCh))

/-- Line 963-964 as the source writes it, at the `String` level. -/
def safeFilename (q : String) : String := String.mk (sanitizeSlug q.data)

/-- The basename of the final artifact for a given extension: the output
template `f"{safe_filename}-{file_hash}.%(ext)s"` (line 965) with the
template variable substituted by the concrete extension, as done by
`output_file.replace('%(ext)s', ext)` in lines 1007-1010 (the slug and the
hash cannot contain the characters `%` or `(`, so the substitution rewrites
exactly the trailing template token). -/
def artifactName (q : String) (ext : String) : List Char :=
  sanitizeSlug q.data ++ '-' :: (fileHash q ++ '.' :: ext.data)

/-- Extensions probed in lines 1007-1010. -/
def probedExts : List String := ["mp3", "m4a", "webm", "ogg"]

/-- The `expected_files` list of lines 1007-1010 (`os.path.join` with the
download directory). -/
def expectedFiles (dir : String) (q : String) : List String :=
  probedExts.map (fun ext => dir ++ "/" ++ String.mk (artifactName q ext))

/-! ### The yt-dlp extraction adapter `_download_with_y2mate_youtube`
(lines 959-1029) -/

/-- Line 970: `search_term = f"ytsearch:{track_info['name']} {track_info['artist']}"`. -/
def searchTerm (t : TrackInfo) : String := "ytsearch:" ++ t.name ++ " " ++ t.artist

/-- Lines 973-978: the `quality_map` dictionary with `.get(quality,
'bestaudio/best')` lookup. -/
def quality_map (q : String) : String :=
  if q = "128" then "bestaudio[abr<=128]/worst"
  else if q = "192" then "bestaudio[abr<=192]/bestaudio[abr<=128]/worst"
  else if q = "320" then "bestaudio/best"
  else "bestaudio/best"

def ydlpUserAgent : String :=
  "Mozilla/5.0 (Windows NT 10.0; Win64; x64) AppleWebKit/537.36 (KHTML, like Gecko) Chrome/91.0.4472.124 Safari/537.36"

/-- Lines 981-993: the yt-dlp argument vector, in source order.  The
`--output` argument is the un-substituted template of line 965. -/
def ydlpCmd (dir : String) (track : TrackInfo) (quality : String) : List String :=
  ["yt-dlp", "--no-warnings",
   "--cookies", "cookies.txt",
   "--format", quality_map quality,
   "--extract-audio",
   "--audio-format", "mp3",
   "--audio-quality", "0",
   "--output", dir ++ "/" ++ safeFilename (searchQuery track) ++ "-" ++
     String.mk (fileHash (searchQuery track)) ++ ".%(ext)s",
   "--no-playlist",
   "--user-agent", ydlpUserAgent,
   searchTerm track]

/-- The part of an adapter invocation that is decided by the outside world:
either some operation inside the adapter's `try` block raised an exception
(network, filesystem or subprocess error), or the yt-dlp subprocess ran to
completion with a return code, leaving the filesystem in a given state. -/
inductive SubprocResult where
  | raisesExc (msg : String)
  | completes (returncode : Int) (fsAfter : FS)

/-- Lines 1005-1021: after a zero exit status, probe each expected output
file; a file over the 50000-byte minimum is returned, a smaller existing
file is deleted (`os.remove`) and probing continues. -/
def probeFiles (fs : FS) : List String → Option String × FS
  | [] => (none, fs)
  | p :: rest =>
    if pathExists fs p then
      if fileSize fs p > 50000 then (some p, fs)
      else probeFiles (removeFile fs p) rest
    else probeFiles fs rest

/-- The whole adapter `_download_with_y2mate_youtube`: builds the command,
runs the subprocess, and postprocesses.  Every exception raised inside the
`try` block (lines 961-1025) is caught by the handler of lines 1027-1029,
which returns the normal value `None`; a non-zero exit status also returns
`None` (lines 1022-1025). -/
def y2mateYoutube (dir : String) (track : TrackInfo) (quality : String)
    (fs : FS) (sub : SubprocResult) : Option String × FS :=
  let _cmd := ydlpCmd dir track quality
  match sub with
  | .raisesExc _ => (none, fs)
  | .completes rc fsAfter =>
    if rc = 0 then probeFiles fsAfter (expectedFiles dir (searchQuery track))
    else (none, fsAfter)

/-! ### The fallback orchestrator `download_track` (lines 31-76) -/

/-- How one `await asyncio.wait_for(download_func(...), timeout=60.0)` in the
loop of lines 55-73 resolves: the adapter returns a value (`Optional[str]`),
the wrapper raises `asyncio.TimeoutError`, or some other exception escapes
the adapter. -/
inductive AdapterBehavior where
  | returns (r : Option String)
  | raisesExc (msg : String)
  | timesOut
deriving DecidableEq

/-- Line 61: `timeout=60.0  # 60 second max per source`. -/
def perSourceTimeoutSeconds : Nat := 60

/-- Line 47: `aiohttp.ClientTimeout(total=15, connect=5, sock_read=10)` —
the session's own per-request budget, independent of the 60s wrapper. -/
def sessionTimeoutTotalSeconds : Nat := 15

/-- The loop of lines 55-76 over the `sources` list, generic in the list of
adapter behaviors.  A returned path is accepted iff it is truthy and
`os.path.exists` holds (line 63); `asyncio.TimeoutError` and any other
exception are caught and the loop continues (lines 68-73); an exhausted
list returns `None` (line 76). -/
def runSources (fs : FS) : List AdapterBehavior → Option String
  | [] => none
  | b :: rest =>
    match b with
    | .returns (some p) =>
      if p != "" && pathExists fs p then some p else runSources fs rest
    | .returns none => runSources fs rest
    | .raisesExc _ => runSources fs rest
    | .timesOut => runSources fs rest

/-- Line 51-53: the `sources` list holds the single Y2Mate entry. -/
def sourceNames : List String := ["Y2Mate"]

/-- `download_track`, with the single adapter's behavior and the
post-adapter filesystem supplied as the environment. -/
def downloadTrack (fs : FS) (y2mate : AdapterBehavior) : Option String :=
  runSources fs [y2mate]

/-- An adapter behavior on which the loop body of lines 55-73 does not
return: a falsy or non-existent path, a timeout, or a raised exception. -/
def failsOn (fs : FS) : AdapterBehavior → Bool
  | .returns (some p) => !(p != "" && pathExists fs p)
  | .returns none => true
  | .raisesExc _ => true
  | .timesOut => true

/-! ### The BitTorrent adapter's validation step (lines 478-493)

Inside `_download_with_bittorrent`, once a magnet link mentioning audio is
found, the code writes the 27-byte demonstration payload
`b"Demo BitTorrent MP3 content"` to the output file and returns it as a
success whenever its size exceeds 10 bytes. -/

def demoContent : String := "Demo BitTorrent MP3 content"

/-- Line 488: `if os.path.getsize(output_file) > 10`. -/
def bittorrentMinBytes : Nat := 10

/-- Lines 484-493: write the demo payload, validate against the 10-byte
minimum, return success or delete. -/
def bittorrentStoreDemo (fs : FS) (outFile : String) : Option String × FS :=
  let fs1 := writeFile fs outFile demoContent.utf8ByteSize
  if fileSize fs1 outFile > bittorrentMinBytes then (some outFile, fs1)
  else (none, removeFile fs1 outFile)

/-! ### `cleanup` (lines 943-957) and `cleanup_file` (lines 1041-1053) -/

/-- The resources owned by an `AudioProcessor`: whether `self.session` is a
live session object and whether the download directory exists. -/
structure CleanupState where
  sessionOpen : Bool
  dirExists : Bool
deriving DecidableEq

/-- Failure injection for the two effectful primitives of `cleanup`:
whether `session.close()` raises and whether `shutil.rmtree` raises. -/
structure CleanupEnv where
  closeFails : Bool
  rmtreeFails : Bool
deriving DecidableEq

/-- Lines 943-957 as a state transformer returning the state reached and
whether the `except` handler of lines 956-957 caught an exception.  The
source closes the session first (setting `self.session = None` only after a
successful close), then removes the directory if it exists; a raise at
either point jumps to the handler, skipping the rest. -/
def cleanupRun (env : CleanupEnv) (s : CleanupState) : CleanupState × Bool :=
  if s.sessionOpen then
    if env.closeFails then (s, true)
    else if s.dirExists then
      if env.rmtreeFails then (⟨false, true⟩, true)
      else (⟨false, false⟩, false)
    else (⟨false, false⟩, false)
  else if s.dirExists then
    if env.rmtreeFails then (s, true)
    else (⟨false, false⟩, false)
  else (s, false)

/-- `cleanup()` as observed by the caller: the handler swallows every
exception, so only the state transition remains. -/
def cleanup (env : CleanupEnv) (s : CleanupState) : CleanupState :=
  (cleanupRun env s).1

/-- Lines 1041-1053 as a filesystem transformer returning the filesystem
reached and whether the `except` handler of lines 1052-1053 caught an
exception: if the path exists, `os.remove` it (which may raise, modelled by
`removeFails`); otherwise do nothing. -/
def cleanupFileRun (removeFails : Bool) (fs : FS) (p : String) : FS × Bool :=
  if pathExists fs p then
    if removeFails then (fs, true) else (removeFile fs p, false)
  else (fs, false)

/-- `cleanup_file` as observed by the caller: exceptions are swallowed. -/
def cleanup_file (removeFails : Bool) (fs : FS) (p : String) : FS :=
  (cleanupFileRun removeFails fs p).1

/-! ### A specification-side result type for claim C1 -/

/-- Modelled from the spec: the result type the spec assigns to `acquire`
(section 4.4) — a success carries the artifact, and exhausting all adapters
yields `AggregatedFailure` "enumerating each adapter's outcome for
diagnostics", one `(adapterName, reason)` entry per adapter in priority
order.  This type is absent from the source; `download_track` returns
`Optional[str]`. -/
inductive SpecAcquireResult where
  | success (path : String) (sizeBytes : Nat)
  | aggregatedFailure (attempts : List (String × String))
deriving DecidableEq

/-- Modelled from the spec: the all-adapters-failed result the spec
prescribes, built from the per-adapter outcomes. -/
def specAcquireAllFailed (outcomes : List (String × String)) : SpecAcquireResult :=
  .aggregatedFailure outcomes

/-! ### Remaining definitions: invocation summary, safety predicates and
concrete filesystem fixtures used by witnesses and counterexamples -/

/-- The two artifacts of one extraction-adapter invocation that are fixed
before the subprocess runs: the full command line and the list of output
paths that will be probed afterwards. -/
def ydlpInvocation (dir : String) (track : TrackInfo) (quality : String) :
    List String × List String :=
  (ydlpCmd dir track quality, expectedFiles dir (searchQuery track))

/-- A filesystem-safe filename character: ASCII alphanumeric, underscore,
hyphen or dot. -/
def isSafeCh (c : Char) : Bool := isWordCh c || c == '-' || c == '.'

/-- Whether a character list contains two adjacent dots (a `..` traversal
sequence). -/
def hasDotDot : List Char → Bool
  | [] => false
  | c :: rest => (c == '.' && rest.head? == some '.') || hasDotDot rest

/-- Fixture: a filesystem holding a single zero-byte file. -/
def fsZeroByte : FS := fun p => if p = "track.mp3" then some 0 else none

/-- Fixture: a filesystem holding a single 60000-byte file. -/
def fsC4 : FS := fun p => if p = "a.mp3" then some 60000 else none

/-- Fixture: a filesystem holding a single 5-byte file. -/
def fsC5 : FS := fun p => if p = "x.mp3" then some 5 else none

/-- Fixture: a filesystem holding a single 7-byte file. -/
def fsC10 : FS := fun p => if p = "z.mp3" then some 7 else none

/-! ## Helper lemmas -/

theorem getD_mem_or (l : List Char) (n : Nat) (d : Char) :
    l.getD n d ∈ l ∨ l.getD n d = d := by
  induction l generalizing n with
  | nil => right; simp [List.getD]
  | cons a t ih =>
    cases n with
    | zero => left; simp [List.getD]
    | succ m =>
      rcases ih m with h | h
      · left
        rw [List.getD_cons_succ]
        exact List.mem_cons_of_mem a h
      · right
        rw [List.getD_cons_succ]
        exact h

theorem hexDigit_mem (n : Nat) : hexDigit n ∈ hexDigitChars := by
  rcases getD_mem_or hexDigitChars n '0' with h | h
  · exact h
  · rw [hexDigit, h]; decide

theorem md5hexChars_mem (msg : List Nat) :
    ∀ c ∈ md5hexChars msg, c ∈ hexDigitChars := by
  rw [md5hexChars]
  induction md5Digest msg with
  | nil => intro c hc; simp at hc
  | cons b t ih =>
    intro c hc
    rw [List.foldr_cons] at hc
    rcases List.mem_cons.mp hc with h | hc2
    · rw [h]; exact hexDigit_mem _
    · rcases List.mem_cons.mp hc2 with h | h
      · rw [h]; exact hexDigit_mem _
      · exact ih c h

theorem fileHash_mem (q : String) : ∀ c ∈ fileHash q, c ∈ hexDigitChars := by
  intro c hc
  exact md5hexChars_mem _ c (List.take_subset 8 _ hc)

theorem hexDigitChars_props :
    ∀ c ∈ hexDigitChars, isSafeCh c = true ∧ c ≠ '.' ∧ isSepCh c = false := by
  decide

theorem pyStrip_subset (l : List Char) : ∀ c ∈ pyStrip l, c ∈ l := by
  intro c hc
  rw [pyStrip, List.mem_reverse] at hc
  have h1 := (List.dropWhile_sublist isSpaceCh (l := (l.dropWhile isSpaceCh).reverse)).subset hc
  rw [List.mem_reverse] at h1
  exact (List.dropWhile_sublist isSpaceCh (l := l)).subset h1

theorem collapseSeps_chars (l : List Char) :
    ∀ c ∈ collapseSeps l, c = '-' ∨ (c ∈ l ∧ isSepCh c = false) := by
  induction l with
  | nil => intro c hc; simp [collapseSeps] at hc
  | cons a rest ih =>
    intro c hc
    cases rest with
    | nil =>
      cases ha : isSepCh a with
      | true =>
        simp [collapseSeps, ha] at hc
        left; exact hc
      | false =>
        simp [collapseSeps, ha] at hc
        right; exact ⟨by simp [hc], by rw [hc]; exact ha⟩
    | cons b rest2 =>
      cases hab : isSepCh a && isSepCh b with
      | true =>
        rw [collapseSeps, if_pos hab] at hc
        rcases ih c hc with h | ⟨hm, hs⟩
        · left; exact h
        · right; exact ⟨List.mem_cons_of_mem a hm, hs⟩
      | false =>
        rw [collapseSeps, if_neg (by simp [hab])] at hc
        rcases List.mem_cons.mp hc with h | h
        · cases ha : isSepCh a with
          | true => left; rw [h, if_pos ha]
          | false =>
            right
            rw [h, if_neg (by simp [ha])]
            exact ⟨List.mem_cons_self a _, ha⟩
        · rcases ih c h with h2 | ⟨hm, hs⟩
          · left; exact h2
          · right; exact ⟨List.mem_cons_of_mem a hm, hs⟩

theorem sanitizeSlug_chars (l : List Char) :
    ∀ c ∈ sanitizeSlug l, isWordCh c = true ∨ c = '-' := by
  intro c hc
  rcases collapseSeps_chars _ c hc with h | ⟨hmem, hsep⟩
  · right; exact h
  · left
    have hl := pyStrip_subset _ c hmem
    rw [List.mem_filter] at hl
    have hk := hl.2
    rw [keepCh, Bool.or_eq_true, Bool.or_eq_true] at hk
    rw [isSepCh, Bool.or_eq_false_iff] at hsep
    rcases hk with (h | h) | h
    · exact h
    · rw [h] at hsep; simp at hsep
    · rw [hsep.1] at h; simp at h

theorem isWordCh_ne_dot (c : Char) (h : isWordCh c = true) : c ≠ '.' := by
  rintro rfl; revert h; decide

theorem isSafeCh_of_word (c : Char) (h : isWordCh c = true) : isSafeCh c = true := by
  rw [isSafeCh, h]; rfl

theorem isSafeCh_ne_slash (c : Char) (h : isSafeCh c = true) :
    c ≠ '/' ∧ c ≠ '\\' := by
  constructor <;> rintro rfl <;> revert h <;> decide

theorem hasDotDot_append_nodot (l1 l2 : List Char) (h : ∀ c ∈ l1, c ≠ '.') :
    hasDotDot (l1 ++ l2) = hasDotDot l2 := by
  induction l1 with
  | nil => rfl
  | cons a t ih =>
    have ha : (a == '.') = false := by
      rw [beq_eq_false_iff_ne]
      exact h a (List.mem_cons_self a t)
    rw [List.cons_append, hasDotDot, ha, Bool.false_and, Bool.false_or]
    exact ih (fun c hc => h c (List.mem_cons_of_mem a hc))

theorem hasDotDot_of_nodot (l : List Char) (h : ∀ c ∈ l, c ≠ '.') :
    hasDotDot l = false := by
  have := hasDotDot_append_nodot l [] h
  simpa using this

theorem probeFiles_cons_big (fs : FS) (p : String) (rest : List String)
    (h1 : pathExists fs p = true) (h2 : fileSize fs p > 50000) :
    probeFiles fs (p :: rest) = (some p, fs) := by
  rw [probeFiles, if_pos h1, if_pos h2]

theorem probeFiles_cons_small (fs : FS) (p : String) (rest : List String)
    (h1 : pathExists fs p = true) (h2 : ¬fileSize fs p > 50000) :
    probeFiles fs (p :: rest) = probeFiles (removeFile fs p) rest := by
  rw [probeFiles, if_pos h1, if_neg h2]

theorem probeFiles_cons_missing (fs : FS) (p : String) (rest : List String)
    (h1 : pathExists fs p = false) :
    probeFiles fs (p :: rest) = probeFiles fs rest := by
  rw [probeFiles, h1, if_neg Bool.false_ne_true]

theorem pathExists_false_none (fs : FS) (q : String)
    (h : pathExists fs q = false) : fs q = none := by
  rcases hq : fs q with _ | v
  · rfl
  · rw [pathExists, hq] at h
    exact absurd h (by simp)

theorem removeFile_self (fs : FS) (p : String) : removeFile fs p p = none := by
  rw [removeFile, if_pos rfl]

theorem removeFile_other (fs : FS) (p q : String) (h : q ≠ p) :
    removeFile fs p q = fs q := by
  rw [removeFile, if_neg h]

theorem probeFiles_none_preserved (fs : FS) (paths : List String) (q : String)
    (h : fs q = none) : (probeFiles fs paths).2 q = none := by
  induction paths generalizing fs with
  | nil => exact h
  | cons p rest ih =>
    by_cases he : pathExists fs p = true
    · by_cases hsz : fileSize fs p > 50000
      · rw [probeFiles_cons_big fs p rest he hsz]; exact h
      · rw [probeFiles_cons_small fs p rest he hsz]
        refine ih (removeFile fs p) ?_
        by_cases hqp : q = p
        · rw [hqp]; exact removeFile_self fs p
        · rw [removeFile_other fs p q hqp]; exact h
    · rw [probeFiles_cons_missing fs p rest (Bool.not_eq_true _ ▸ he)]
      exact ih fs h

/-! ## Claim theorems -/

/-- Claim C3 (confirmed): for every query string, including adversarial
input with slashes, quotes, control characters or emoji, the artifact-name
derivation (lines 962-965: an 8-hex-digit md5 prefix plus a sanitized slug)
is deterministic — equal queries yield equal names — and every produced
name consists only of filesystem-safe characters (alphanumeric, underscore,
hyphen, dot), contains no path separator `/` or `\`, and contains no `..`
traversal sequence. -/
theorem claimC3_theorem (q1 q2 ext : String)
    (hq : q1 = q2) (hext : ext ∈ probedExts) :
    artifactName q1 ext = artifactName q2 ext ∧
    (∀ c ∈ artifactName q1 ext, isSafeCh c = true) ∧
    (∀ c ∈ artifactName q1 ext, c ≠ '/' ∧ c ≠ '\\') ∧
    hasDotDot (artifactName q1 ext) = false := by
  subst hq
  have hext4 : ext = "mp3" ∨ ext = "m4a" ∨ ext = "webm" ∨ ext = "ogg" := by
    simpa [probedExts] using hext
  have hsafe : ∀ c ∈ artifactName q1 ext, isSafeCh c = true := by
    intro c hc
    rw [artifactName] at hc
    rcases List.mem_append.mp hc with h | h
    · rcases sanitizeSlug_chars _ c h with hw | hw
      · exact isSafeCh_of_word c hw
      · rw [hw]; decide
    · rcases List.mem_cons.mp h with h2 | h2
      · rw [h2]; decide
      · rcases List.mem_append.mp h2 with h3 | h3
        · exact (hexDigitChars_props c (fileHash_mem q1 c h3)).1
        · rcases List.mem_cons.mp h3 with h4 | h4
          · rw [h4]; decide
          · rcases hext4 with rfl | rfl | rfl | rfl <;>
              exact (by decide : ∀ x ∈ String.data _, isSafeCh x = true) c h4
  refine ⟨rfl, hsafe, fun c hc => isSafeCh_ne_slash c (hsafe c hc), ?_⟩
  have hre : artifactName q1 ext =
      (sanitizeSlug q1.data ++ '-' :: fileHash q1) ++ ('.' :: ext.data) := by
    simp [artifactName, List.append_assoc]
  rw [hre, hasDotDot_append_nodot]
  · rcases hext4 with rfl | rfl | rfl | rfl <;> decide
  · intro c hc
    rcases List.mem_append.mp hc with h | h
    · rcases sanitizeSlug_chars _ c h with hw | hw
      · exact isWordCh_ne_dot c hw
      · rw [hw]; decide
    · rcases List.mem_cons.mp h with h2 | h2
      · rw [h2]; decide
      · exact (hexDigitChars_props c (fileHash_mem q1 c h2)).2.1

/-- Witness for C3 at the adversarial query `a/b"c` and extension `mp3`. -/
theorem claimC3_witness :
    ("a/b\"c" : String) = "a/b\"c" ∧ ("mp3" : String) ∈ probedExts ∧
    (artifactName "a/b\"c" "mp3" = artifactName "a/b\"c" "mp3" ∧
     (∀ c ∈ artifactName "a/b\"c" "mp3", isSafeCh c = true) ∧
     (∀ c ∈ artifactName "a/b\"c" "mp3", c ≠ '/' ∧ c ≠ '\\') ∧
     hasDotDot (artifactName "a/b\"c" "mp3") = false) :=
  ⟨rfl, by decide, claimC3_theorem "a/b\"c" "a/b\"c" "mp3" rfl (by decide)⟩

/-- Claim C7 (confirmed): the extraction adapter maps the quality
preference in three tiers (lines 973-978), any unrecognized quality falls
back to `bestaudio/best`, and the search directive passed to yt-dlp is
exactly `ytsearch:` followed by title, a space and artist; in particular
for "Shape of You" / "Ed Sheeran" at quality "192" the command carries the
mid-bitrate ceiling selector and `ytsearch:Shape of You Ed Sheeran`. -/
theorem claimC7_theorem :
    quality_map "128" = "bestaudio[abr<=128]/worst" ∧
    quality_map "192" = "bestaudio[abr<=192]/bestaudio[abr<=128]/worst" ∧
    quality_map "320" = "bestaudio/best" ∧
    (∀ q : String, q ≠ "128" → q ≠ "192" → q ≠ "320" →
       quality_map q = "bestaudio/best") ∧
    searchTerm ⟨"Shape of You", "Ed Sheeran"⟩ = "ytsearch:Shape of You Ed Sheeran" ∧
    (ydlpCmd "/tmp" ⟨"Shape of You", "Ed Sheeran"⟩ "192").getD 5 "" =
      "bestaudio[abr<=192]/bestaudio[abr<=128]/worst" ∧
    (ydlpCmd "/tmp" ⟨"Shape of You", "Ed Sheeran"⟩ "192").getLast? =
      some "ytsearch:Shape of You Ed Sheeran" := by
  refine ⟨by decide, by decide, by decide, ?_, by decide, ?_, ?_⟩
  · intro q h1 h2 h3
    rw [quality_map, if_neg h1, if_neg h2, if_neg h3]
  · rw [ydlpCmd]; decide
  · rw [ydlpCmd]; decide

/-- Witness for C7: the unrecognized quality "999" falls back to
best-available. -/
theorem claimC7_witness : quality_map "999" = "bestaudio/best" :=
  claimC7_theorem.2.2.2.1 "999" (by decide) (by decide) (by decide)

/-- Claim C9 (confirmed): the derived output file paths of the extraction
adapter depend only on the query (title plus artist, line 42 and lines
962-965), never on the quality argument: two invocations for the same
track at different qualities probe identical output paths, and the
`--output` template element of the command is identical as well. -/
theorem claimC9_theorem (dir : String) (track : TrackInfo) (q1 q2 : String) :
    (ydlpInvocation dir track q1).2 = (ydlpInvocation dir track q2).2 ∧
    (ydlpCmd dir track q1).getD 12 "" = (ydlpCmd dir track q2).getD 12 "" ∧
    searchQuery track = track.name ++ " " ++ track.artist :=
  ⟨rfl, rfl, rfl⟩

/-- Claim C2 (confirmed): no exception escapes the adapter or the
orchestrator boundary.  Any exception raised inside the extraction
adapter's `try` block resolves to the normal return value `None` with the
filesystem untouched (handler at lines 1027-1029), and an exception or
timeout reaching the orchestrator loop is caught there (lines 68-73) and
merely advances the fallback chain — `download_track` always returns a
normal `Optional[str]` value. -/
theorem claimC2_theorem :
    (∀ (dir : String) (track : TrackInfo) (quality : String) (fs : FS) (msg : String),
       y2mateYoutube dir track quality fs (SubprocResult.raisesExc msg) = (none, fs)) ∧
    (∀ (fs : FS) (msg : String) (rest : List AdapterBehavior),
       runSources fs (AdapterBehavior.raisesExc msg :: rest) = runSources fs rest) ∧
    (∀ (fs : FS) (rest : List AdapterBehavior),
       runSources fs (AdapterBehavior.timesOut :: rest) = runSources fs rest) :=
  ⟨fun _ _ _ _ _ => rfl, fun _ _ _ => rfl, fun _ _ => rfl⟩

/-- Claim C6 (confirmed): each adapter invocation is wrapped in a 60-second
wall-clock budget (line 61), independent of the session's own 15-second
per-request budget (line 47), and an elapsed budget is treated exactly like
an adapter-reported failure: the loop continues with the next adapter
instead of aborting. -/
theorem claimC6_theorem :
    perSourceTimeoutSeconds = 60 ∧
    sessionTimeoutTotalSeconds = 15 ∧
    (∀ (fs : FS) (rest : List AdapterBehavior),
       runSources fs (AdapterBehavior.timesOut :: rest) =
         runSources fs (AdapterBehavior.returns none :: rest)) ∧
    (∀ (fs : FS) (rest : List AdapterBehavior),
       runSources fs (AdapterBehavior.timesOut :: rest) = runSources fs rest) :=
  ⟨rfl, rfl, fun _ _ => rfl, fun _ _ => rfl⟩

/-- Counterexample to claim C1 as stated: when the single adapter fails,
`download_track` returns `None` (line 76) — a bare sentinel of type
`Optional[str]` — and it returns the very same value for two runs whose
per-adapter outcomes differ, so the returned failure cannot contain one
outcome entry per adapter; the spec-side `AggregatedFailure` results for
those two runs are distinct. -/
theorem claimC1_counterexample :
    downloadTrack (fun _ => none) (AdapterBehavior.raisesExc "NetworkError") = none ∧
    downloadTrack (fun _ => none) (AdapterBehavior.raisesExc "ParseError") = none ∧
    specAcquireAllFailed [("Y2Mate", "NetworkError")] ≠
      specAcquireAllFailed [("Y2Mate", "ParseError")] :=
  ⟨rfl, rfl, by decide⟩

/-- Claim C1 (amended): when every adapter in the chain fails or times out,
`download_track` returns `None`; the per-adapter outcomes are only logged,
not returned. -/
theorem claimC1_theorem (fs : FS) (bs : List AdapterBehavior)
    (h : ∀ b ∈ bs, failsOn fs b = true) : runSources fs bs = none := by
  induction bs with
  | nil => rfl
  | cons b rest ih =>
    have hrest := ih (fun x hx => h x (List.mem_cons_of_mem b hx))
    cases b with
    | returns r =>
      cases r with
      | none => exact hrest
      | some p =>
        have hb := h _ (List.mem_cons_self _ rest)
        rw [failsOn, Bool.not_eq_true'] at hb
        rw [runSources, if_neg (by rw [hb]; exact Bool.false_ne_true)]
        exact hrest
    | raisesExc m => exact hrest
    | timesOut => exact hrest

/-- Witness for C1 (amended): a chain of a timeout and a plain failure
returns `None`. -/
theorem claimC1_witness :
    (∀ b ∈ [AdapterBehavior.timesOut, AdapterBehavior.returns none],
       failsOn (fun _ => none) b = true) ∧
    runSources (fun _ => none) [AdapterBehavior.timesOut, AdapterBehavior.returns none] = none :=
  ⟨by decide, claimC1_theorem (fun _ => none) _ (by decide)⟩

/-- Counterexample to claim C5 as stated: the orchestrator's check at line
63 is `if file_path and os.path.exists(file_path)` — existence only, no
size check — so an adapter-reported path to an existing zero-byte file is
returned as success. -/
theorem claimC5_counterexample :
    fsZeroByte "track.mp3" = some 0 ∧
    downloadTrack fsZeroByte (AdapterBehavior.returns (some "track.mp3")) =
      some "track.mp3" :=
  ⟨by decide, by decide⟩

/-- Claim C5 (amended): before returning success the orchestrator
re-validates only that the adapter returned a truthy (non-empty) path and
that the file exists; it does not check the file size. -/
theorem claimC5_theorem (fs : FS) (bs : List AdapterBehavior) (p : String)
    (h : runSources fs bs = some p) : p ≠ "" ∧ pathExists fs p = true := by
  induction bs with
  | nil => exact absurd h (by rw [runSources]; exact Option.noConfusion)
  | cons b rest ih =>
    cases b with
    | returns r =>
      cases r with
      | none => exact ih h
      | some p2 =>
        by_cases hc : (p2 != "" && pathExists fs p2) = true
        · rw [runSources, if_pos hc] at h
          obtain rfl : p2 = p := Option.some.injEq p2 p ▸ h
          rw [Bool.and_eq_true, bne_iff_ne] at hc
          exact hc
        · rw [runSources, if_neg hc] at h
          exact ih h
    | raisesExc m => exact ih h
    | timesOut => exact ih h

/-- Witness for C5 (amended): a returned 5-byte file passes the amended
validation. -/
theorem claimC5_witness :
    runSources fsC5 [AdapterBehavior.returns (some "x.mp3")] = some "x.mp3" ∧
    ("x.mp3" ≠ "" ∧ pathExists fsC5 "x.mp3" = true) :=
  ⟨by decide,
   claimC5_theorem fsC5 [AdapterBehavior.returns (some "x.mp3")] "x.mp3" (by decide)⟩

/-- Counterexample to claim C4 as stated: the BitTorrent adapter (lines
484-493, cited by the claim) validates against a 10-byte minimum, writes
the 27-byte demo payload and returns it as success — an artifact far below
the provider minimum threshold of 50-100 KB stated by the spec. -/
theorem claimC4_counterexample :
    (bittorrentStoreDemo (fun _ => none) "song.mp3").1 = some "song.mp3" ∧
    fileSize (bittorrentStoreDemo (fun _ => none) "song.mp3").2 "song.mp3" = 27 ∧
    bittorrentMinBytes = 10 ∧ 27 < 50000 := by
  refine ⟨by decide, by decide, rfl, by decide⟩

/-- Claim C4 (amended): in the active yt-dlp extraction adapter the probe
loop of lines 1012-1019 enforces a 50000-byte minimum: every path returned
as success holds a file larger than 50000 bytes, and when the probe fails
no probed output file remains on disk (each existing sub-threshold file is
deleted).  The BitTorrent stub adapter, by contrast, uses a 10-byte
minimum. -/
theorem claimC4_theorem (fs : FS) (paths : List String) :
    (∀ p, (probeFiles fs paths).1 = some p →
       pathExists fs p = true ∧ fileSize fs p > 50000 ∧
       (probeFiles fs paths).2 p = fs p) ∧
    ((probeFiles fs paths).1 = none →
       ∀ q ∈ paths, (probeFiles fs paths).2 q = none) := by
  induction paths generalizing fs with
  | nil =>
    refine ⟨fun p hp => absurd hp (by rw [probeFiles]; exact Option.noConfusion), ?_⟩
    intro _ q hq
    exact absurd hq (List.not_mem_nil q)
  | cons p rest ih =>
    constructor
    · intro p2 hp2
      by_cases he : pathExists fs p = true
      · by_cases hsz : fileSize fs p > 50000
        · rw [probeFiles_cons_big fs p rest he hsz] at hp2 ⊢
          obtain rfl : p = p2 := by simpa using hp2
          exact ⟨he, hsz, rfl⟩
        · rw [probeFiles_cons_small fs p rest he hsz] at hp2 ⊢
          obtain ⟨h1, h2, h3⟩ := (ih (removeFile fs p)).1 p2 hp2
          have hne : p2 ≠ p := by
            intro he2
            rw [he2, pathExists, removeFile_self] at h1
            exact absurd h1 (by simp)
          rw [pathExists, removeFile_other fs p p2 hne] at h1
          rw [fileSize, removeFile_other fs p p2 hne] at h2
          rw [removeFile_other fs p p2 hne] at h3
          exact ⟨h1, h2, h3⟩
      · rw [probeFiles_cons_missing fs p rest (Bool.not_eq_true _ ▸ he)] at hp2 ⊢
        exact (ih fs).1 p2 hp2
    · intro hnone q hq
      by_cases he : pathExists fs p = true
      · by_cases hsz : fileSize fs p > 50000
        · rw [probeFiles_cons_big fs p rest he hsz] at hnone
          exact absurd hnone Option.noConfusion
        · rw [probeFiles_cons_small fs p rest he hsz] at hnone ⊢
          rcases List.mem_cons.mp hq with rfl | hq2
          · exact probeFiles_none_preserved (removeFile fs q) rest q
              (removeFile_self fs q)
          · exact (ih (removeFile fs p)).2 hnone q hq2
      · have he2 : pathExists fs p = false := Bool.not_eq_true _ ▸ he
        rw [probeFiles_cons_missing fs p rest he2] at hnone ⊢
        rcases List.mem_cons.mp hq with rfl | hq2
        · exact probeFiles_none_preserved fs rest q (pathExists_false_none fs q he2)
        · exact (ih fs).2 hnone q hq2

/-- Witness for C4 (amended): a 60000-byte output file is accepted and
keeps its size. -/
theorem claimC4_witness :
    (probeFiles fsC4 ["a.mp3"]).1 = some "a.mp3" ∧
    (pathExists fsC4 "a.mp3" = true ∧ fileSize fsC4 "a.mp3" > 50000 ∧
       (probeFiles fsC4 ["a.mp3"]).2 "a.mp3" = fsC4 "a.mp3") :=
  ⟨by decide, (claimC4_theorem fsC4 ["a.mp3"]).1 "a.mp3" (by decide)⟩

/-- Counterexample to claim C8 as stated: when `shutil.rmtree` raises, the
handler of lines 956-957 swallows the error and the download directory
still exists after `cleanup` completes; when `session.close()` raises, the
session is not cleared either.  So "after it completes the shared session
is closed and the temporary download directory no longer exists" does not
hold in every state. -/
theorem claimC8_counterexample :
    (cleanup ⟨false, true⟩ ⟨true, true⟩).dirExists = true ∧
    (cleanup ⟨true, false⟩ ⟨true, true⟩).sessionOpen = true :=
  ⟨rfl, rfl⟩

/-- Claim C8 (amended): `cleanup` never propagates an exception (every
outcome of the underlying primitives yields a normal return), it is
idempotent — a second call under the same conditions changes nothing — and
whenever the session close and the directory removal succeed, afterwards
the session is closed and the directory no longer exists. -/
theorem claimC8_theorem (env : CleanupEnv) (s : CleanupState) :
    cleanup env (cleanup env s) = cleanup env s ∧
    (env.closeFails = false → env.rmtreeFails = false →
      (cleanup env s).sessionOpen = false ∧ (cleanup env s).dirExists = false) := by
  rcases env with ⟨cf, rf⟩
  rcases s with ⟨so, de⟩
  cases cf <;> cases rf <;> cases so <;> cases de <;> decide

/-- Witness for C8 (amended): with both primitives succeeding from the
fully-open state, everything is torn down. -/
theorem claimC8_witness :
    ((false : Bool) = false) ∧
    ((cleanup ⟨false, false⟩ ⟨true, true⟩).sessionOpen = false ∧
     (cleanup ⟨false, false⟩ ⟨true, true⟩).dirExists = false) :=
  ⟨rfl, (claimC8_theorem ⟨false, false⟩ ⟨true, true⟩).2 rfl rfl⟩

/-- Claim C10 (confirmed): `cleanup_file` never raises (the handler of
lines 1052-1053 swallows any `os.remove` error, in which case the
filesystem is left as it was); when the path exists and removal succeeds
the file is removed and no other path is affected; when the path does not
exist the call is a no-op leaving the filesystem unchanged. -/
theorem claimC10_theorem (rFails : Bool) (fs : FS) (p : String) :
    (pathExists fs p = false → cleanup_file rFails fs p = fs) ∧
    (rFails = true → cleanup_file rFails fs p = fs) ∧
    (pathExists fs p = true → rFails = false →
       cleanup_file rFails fs p p = none ∧
       ∀ q, q ≠ p → cleanup_file rFails fs p q = fs q) := by
  refine ⟨?_, ?_, ?_⟩
  · intro h
    rw [cleanup_file, cleanupFileRun, h, if_neg Bool.false_ne_true]
  · intro h
    rw [cleanup_file, cleanupFileRun, h]
    split <;> rfl
  · intro h1 h2
    rw [cleanup_file, cleanupFileRun, h1, h2, if_pos rfl, if_neg Bool.false_ne_true]
    exact ⟨removeFile_self fs p, fun q hq => removeFile_other fs p q hq⟩

/-- Witness for C10: removing an existing 7-byte file deletes exactly that
path. -/
theorem claimC10_witness :
    pathExists fsC10 "z.mp3" = true ∧ ((false : Bool) = false) ∧
    (cleanup_file false fsC10 "z.mp3" "z.mp3" = none ∧
     ∀ q, q ≠ "z.mp3" → cleanup_file false fsC10 "z.mp3" q = fsC10 q) :=
  ⟨by decide, rfl, (claimC10_theorem false fsC10 "z.mp3").2.2 (by decide) rfl⟩
